/-
  Verification of the customs-brokerage server actions
  (src/app/actions/import.ts) against their specification.

  The TypeScript actions are shallowly embedded as pure Lean functions:
  the Prisma datastore is a `DB` record of row lists, the session is an
  `Option User`, the clock (`new Date()`) and the pseudo-random draw
  (`Math.floor(Math.random() * 10000)`) are explicit parameters, and a
  thrown error is an `Except.error`.  JSON blobs are stored as their
  structured values: `JSON.stringify` is injective on these shapes, so
  equality of stored values coincides with byte-equality of the blobs.
  Row ids (cuid strings in the original schema) are modelled as `Nat`
  drawn from a freshness counter; a cuid is a non-empty string, so
  JavaScript truthiness of an optional id is modelled as `Option.isSome`.
-/
import Mathlib

namespace Clexcb

/-- JavaScript `a || b` for strings: empty string is falsy. -/
def jsOr (a b : String) : String := if a.isEmpty then b else a

/-- JavaScript `a || ''` for an optional string field (`tin || ''` etc.):
`undefined` and `''` both give `''`. -/
def jsOrEmpty : Option String → String
  | none => ""
  | some s => s

/-- JavaScript `x || undefined` on an optional string: empty string becomes
`undefined`. -/
def jsOrUndefined : Option String → Option String
  | none => none
  | some s => if s.isEmpty then none else some s

/-- JavaScript truthiness of an optional id field (`if (c.id)`); an id is a
cuid (non-empty string), so presence is truthiness. -/
def idTruthy : Option Nat → Bool := Option.isSome

/-- `new Date().getFullYear().toString().slice(-2)`: the last two characters
of the decimal year (the whole string when shorter). -/
def yearSlice2 (year : Nat) : String :=
  (Nat.repr year).drop ((Nat.repr year).length - 2)

/-- `.toString().padStart(4, '0')`. -/
def padStart4 (s : String) : String :=
  String.mk (List.replicate (4 - s.length) '0') ++ s

/-- The reference number built at shipment creation:
`` `CLEX-${type}${year.slice(-2)}-${draw.toString().padStart(4,'0')}` ``
where `draw = Math.floor(Math.random() * 10000)`. -/
def referenceNumber (shipmentType : String) (year : Nat) (draw : Nat) : String :=
  "CLEX-" ++ shipmentType ++ yearSlice2 year ++ "-" ++ padStart4 (Nat.repr draw)

/-! ### Data model -/

/-- The authenticated principal (`session.user`). -/
structure User where
  id : Nat
  deriving DecidableEq, Repr

/-- A persisted consignee row. -/
structure Consignee where
  id : Nat
  name : String
  registeredName : String
  businessAddress : String
  tin : String
  brn : String
  contactPerson : String
  contactNumber : String
  email : String
  userId : Nat
  deriving DecidableEq, Repr

/-- A persisted exporter row. -/
structure Exporter where
  id : Nat
  name : String
  businessAddress : String
  contactPerson : String
  contactNumber : String
  email : String
  userId : Nat
  deriving DecidableEq, Repr

/-- A relational client KYC document row (attached to a consignee). -/
structure ClientDoc where
  id : Nat
  consigneeId : Nat
  name : String
  fileUrl : String
  uploadedAt : String
  isVerified : Bool
  deriving DecidableEq, Repr

/-- The consignee object inside `formData` / `updates`
(`formData.consignee`): name and address are required, the rest optional. -/
structure ConsigneeInput where
  id : Option Nat
  name : String
  address : String
  tin : Option String
  brn : Option String
  deriving DecidableEq, Repr

/-- The exporter object inside `formData` / `updates`. -/
structure ExporterInput where
  id : Option Nat
  name : String
  address : String
  deriving DecidableEq, Repr

/-- The free-form `shipmentDetails` blob; the fields the actions read. -/
structure ShipmentDetailsInput where
  contact_person : Option String := none
  contact_number : Option String := none
  bl_number : Option String := none
  awb_number : Option String := none
  eta : Option String := none
  deriving DecidableEq, Repr

/-- One entry of the shipment documents checklist blob.  `files` is
`Option` because the original JSON may lack the field (`doc.files || []`). -/
structure DocEntry where
  name : String
  status : String
  files : Option (List String)
  deriving DecidableEq, Repr

/-- One timeline blob entry.  Creation writes `{status, timestamp,
description}`; `updateShipmentStatus` appends `{stage, status, timestamp}`;
the optional fields cover both shapes. -/
structure TimelineEntry where
  stage : Option String
  status : String
  timestamp : String
  description : Option String
  deriving DecidableEq, Repr

/-- The `Partial<ShipmentData>` payload of `createShipmentAction` and
`updateShipmentDetailsAction`: every field optional (absent = JS-falsy). -/
structure ShipmentForm where
  consignee : Option ConsigneeInput := none
  exporter : Option ExporterInput := none
  shipmentDetails : Option ShipmentDetailsInput := none
  documents : Option (List DocEntry) := none
  timeline : Option (List TimelineEntry) := none
  notes : Option (List String) := none
  cargo : Option (List String) := none
  statementOfFacts : Option (List String) := none
  deriving DecidableEq, Repr

/-- A persisted shipment row.  The seven JSON blob columns are stored as
structured values (see header note); `consigneeData`/`exporterData` use
`none` for the `{}` written when the form had no client object, and
`cargoData`/`statementOfFactsData`/`computations` are nullable columns. -/
structure Shipment where
  id : Nat
  referenceNumber : String
  freightType : String
  status : String
  consigneeId : Option Nat
  exporterId : Option Nat
  userId : Nat
  consigneeData : Option ConsigneeInput
  exporterData : Option ExporterInput
  shipmentDetails : ShipmentDetailsInput
  documentsData : List DocEntry
  timelineData : List TimelineEntry
  notesData : List String
  computations : Option (List (String × String))
  cargoData : Option (List String)
  statementOfFactsData : Option (List String)
  isLocked : Bool
  completionDate : Option String
  createdAt : String
  updatedAt : String
  deriving DecidableEq, Repr

/-- The datastore: row lists in insertion order plus a freshness counter
for generated ids. -/
structure DB where
  nextId : Nat
  consignees : List Consignee
  exporters : List Exporter
  shipments : List Shipment
  clientDocuments : List ClientDoc
  deriving DecidableEq, Repr

/-! ### Identity gate -/

/-- `getCurrentUser`: resolve the session or throw `'Unauthorized'`. -/
def getCurrentUser (session : Option User) : Except String User :=
  match session with
  | none => .error "Unauthorized"
  | some u => .ok u

/-! ### createShipmentAction -/

/-- The Prisma `where` filter of the consignee lookup:
`OR: [{tin}, {name}], userId`.  An `undefined` tin makes the first OR arm
an empty filter, which Prisma treats as matching every row. -/
def consigneeWhere (c : ConsigneeInput) (uid : Nat) (row : Consignee) : Bool :=
  ((match c.tin with
    | none => true
    | some t => row.tin == t) || row.name == c.name) && row.userId == uid

/-- The Prisma `where` filter of the exporter lookup:
`AND: [{name}, {businessAddress}], userId`. -/
def exporterWhere (e : ExporterInput) (uid : Nat) (row : Exporter) : Bool :=
  row.name == e.name && row.businessAddress == e.address && row.userId == uid

/-- The `// Handle Consignee` block of `createShipmentAction`
(lines 37–67): note the nested gate `if (formData.consignee) {
if (formData.consignee.id) { … } }` — the lookup/create only runs when the
input carries a truthy id. -/
def handleConsignee (form : ShipmentForm) (uid : Nat) (db : DB) :
    Option Nat × DB :=
  match form.consignee with
  | none => (none, db)
  | some c =>
    if idTruthy c.id then
      match db.consignees.find? (consigneeWhere c uid) with
      | some existing => (some existing.id, db)
      | none =>
        let newConsignee : Consignee :=
          { id := db.nextId
            name := c.name
            registeredName := c.name
            businessAddress := c.address
            tin := jsOrEmpty c.tin
            brn := jsOrEmpty c.brn
            contactPerson := jsOrEmpty (form.shipmentDetails.bind (·.contact_person))
            contactNumber := jsOrEmpty (form.shipmentDetails.bind (·.contact_number))
            email := ""
            userId := uid }
        (some newConsignee.id,
          { db with
              nextId := db.nextId + 1
              consignees := db.consignees ++ [newConsignee] })
    else (none, db)

/-- The `// Handle Exporter` block of `createShipmentAction` (lines 70–96). -/
def handleExporter (form : ShipmentForm) (uid : Nat) (db : DB) :
    Option Nat × DB :=
  match form.exporter with
  | none => (none, db)
  | some e =>
    match db.exporters.find? (exporterWhere e uid) with
    | some existing => (some existing.id, db)
    | none =>
      let newExporter : Exporter :=
        { id := db.nextId
          name := e.name
          businessAddress := e.address
          contactPerson := ""
          contactNumber := ""
          email := ""
          userId := uid }
      (some newExporter.id,
        { db with
            nextId := db.nextId + 1
            exporters := db.exporters ++ [newExporter] })

/-- Success payload of `createShipmentAction`:
`{ success: true, referenceNumber, shipment }`. -/
structure CreateShipmentResult where
  referenceNumber : String
  shipment : Shipment
  deriving DecidableEq, Repr

/-- `createShipmentAction`: find-or-create clients, then insert the
shipment row inside one transaction; any thrown error (including
`Unauthorized`) is caught and rethrown as `'Failed to create shipment'`. -/
def createShipmentAction (session : Option User) (shipmentType : String)
    (form : ShipmentForm) (db : DB) (now : String) (year : Nat) (draw : Nat) :
    Except String CreateShipmentResult × DB :=
  match getCurrentUser session with
  | .error _ => (.error "Failed to create shipment", db)
  | .ok user =>
    let (consigneeId, db₁) := handleConsignee form user.id db
    let (exporterId, db₂) := handleExporter form user.id db₁
    let shipment : Shipment :=
      { id := db₂.nextId
        referenceNumber := referenceNumber shipmentType year draw
        freightType := shipmentType
        status := "CLIENT_DETAILS"
        consigneeId := consigneeId
        exporterId := exporterId
        userId := user.id
        consigneeData := form.consignee
        exporterData := form.exporter
        shipmentDetails := form.shipmentDetails.getD {}
        documentsData := form.documents.getD []
        timelineData := [{ stage := none
                           status := "CLIENT_DETAILS"
                           timestamp := now
                           description := some "Shipment created" }]
        notesData := []
        computations := some []
        cargoData := none
        statementOfFactsData := none
        isLocked := false
        completionDate := none
        createdAt := now
        updatedAt := now }
    (.ok { referenceNumber := shipment.referenceNumber, shipment := shipment },
      { db₂ with
          nextId := db₂.nextId + 1
          shipments := db₂.shipments ++ [shipment] })

/-! ### getSavedEntitiesAction -/

/-- The two client kinds (`type: 'consignee' | 'exporter'`). -/
inductive ClientType where
  | consignee
  | exporter
  deriving DecidableEq, Repr

/-- One element of `getSavedEntitiesAction`'s result: the consignee branch
projects tin/brn, the exporter branch does not. -/
inductive SavedEntity where
  | consignee (id : Nat) (name address tin brn contactPerson contactNumber email : String)
  | exporter (id : Nat) (name address contactPerson contactNumber email : String)
  deriving DecidableEq, Repr

/-- `getSavedEntitiesAction`: list the caller's saved clients newest-first
(rows are kept in creation order, so `orderBy createdAt desc` is the
reverse of the filtered list); every error — `Unauthorized` included — is
caught and becomes `[]`. -/
def getSavedEntitiesAction (session : Option User) (type : ClientType)
    (db : DB) : List SavedEntity :=
  match getCurrentUser session with
  | .error _ => []
  | .ok user =>
    match type with
    | .consignee =>
      ((db.consignees.filter (·.userId == user.id)).reverse).map fun c =>
        .consignee c.id c.name c.businessAddress c.tin c.brn
          c.contactPerson c.contactNumber c.email
    | .exporter =>
      ((db.exporters.filter (·.userId == user.id)).reverse).map fun e =>
        .exporter e.id e.name e.businessAddress
          e.contactPerson e.contactNumber e.email

/-! ### processDocumentUploadAction -/

/-- Success payload of `processDocumentUploadAction`
(`{ success: true, fileUrl, status: 'draft' }`). -/
structure UploadResult where
  fileUrl : String
  status : String
  deriving DecidableEq, Repr

/-- The per-entry update of the documents checklist: a matching name gets
status `'draft'` and the file reference appended (`doc.files || []`);
other entries pass through unchanged. -/
def applyUpload (documentType : String) (url : String) (doc : DocEntry) :
    DocEntry :=
  if doc.name == documentType then
    { doc with status := "draft", files := some (doc.files.getD [] ++ [url]) }
  else doc

/-- `processDocumentUploadAction`: verify ownership, build the simulated
URL, map the checklist, and write it back; every thrown error is caught and
rethrown as `'Failed to process document upload'`.  `timestamp` stands for
`new Date().getTime()` rendered into the URL. -/
def processDocumentUploadAction (session : Option User) (shipmentId : Nat)
    (documentType : String) (fileName : String) (db : DB)
    (timestamp : String) : Except String UploadResult × DB :=
  match getCurrentUser session with
  | .error _ => (.error "Failed to process document upload", db)
  | .ok user =>
    match db.shipments.find? (fun s => s.id == shipmentId && s.userId == user.id) with
    | none => (.error "Failed to process document upload", db)
    | some shipment =>
      let simulatedUrl :=
        "/simulated-uploads/" ++ Nat.repr shipmentId ++ "/" ++ documentType
          ++ "-" ++ timestamp ++ "-" ++ fileName
      let updatedDocuments :=
        shipment.documentsData.map (applyUpload documentType simulatedUrl)
      (.ok { fileUrl := simulatedUrl, status := "draft" },
        { db with
            shipments := db.shipments.map fun s =>
              if s.id == shipmentId then
                { s with documentsData := updatedDocuments }
              else s })

/-! ### getShipmentsAction -/

/-- One row of the list projection (`ShipmentListItem`). -/
structure ShipmentListItem where
  id : Nat
  referenceNumber : String
  consignee : String
  type : String
  blNumber : Option String
  awbNumber : Option String
  status : String
  eta : Option String
  completionDate : Option String
  lastUpdate : String
  isLocked : Bool
  deriving DecidableEq, Repr

/-- `{ success, data }` shape of `getShipmentsAction`. -/
structure ShipmentsResult where
  success : Bool
  data : List ShipmentListItem
  deriving DecidableEq, Repr

/-- The per-row transform of `getShipmentsAction`: sea/air from the freight
type, bl/awb pulled from the details blob conditioned on that, display name
preferring the relational consignee. -/
def toListItem (db : DB) (shipment : Shipment) : ShipmentListItem :=
  let details := shipment.shipmentDetails
  let shipmentType := if shipment.freightType == "IMS" then "sea" else "air"
  let relational := shipment.consigneeId.bind fun cid =>
    db.consignees.find? (·.id == cid)
  { id := shipment.id
    referenceNumber := shipment.referenceNumber
    consignee :=
      jsOr (match relational with
            | some c => c.name
            | none => jsOrEmpty (shipment.consigneeData.map (·.name))) "N/A"
    type := shipmentType
    blNumber := if shipmentType == "sea" then jsOrUndefined details.bl_number else none
    awbNumber := if shipmentType == "air" then jsOrUndefined details.awb_number else none
    status := shipment.status
    eta := jsOrUndefined details.eta
    completionDate := shipment.completionDate
    lastUpdate := shipment.updatedAt
    isLocked := shipment.isLocked }

/-- `getShipmentsAction`: the caller's shipments newest-first, transformed;
any error becomes `{ success: false, data: [] }`. -/
def getShipmentsAction (session : Option User) (db : DB) : ShipmentsResult :=
  match getCurrentUser session with
  | .error _ => { success := false, data := [] }
  | .ok user =>
    { success := true
      data := ((db.shipments.filter (·.userId == user.id)).reverse).map
        (toListItem db) }

/-! ### getShipmentByIdAction -/

/-- The consignee part of the full view when the relation is populated
(includes the nested KYC documents); `D` is the document shape —
`getShipmentByIdAction` passes the raw rows through while
`updateShipmentDetailsAction` remaps them. -/
structure ConsigneeView (D : Type) where
  id : Nat
  name : String
  address : String
  tin : String
  brn : String
  contactPerson : String
  contactNumber : String
  email : String
  documents : List D
  deriving DecidableEq, Repr

/-- The exporter part of the full view when the relation is populated. -/
structure ExporterView where
  id : Nat
  name : String
  address : String
  contactPerson : String
  contactNumber : String
  email : String
  deriving DecidableEq, Repr

/-- The consignee field of the full shipment view: relational projection
when the relation resolves, else the decoded JSON snapshot. -/
inductive ConsigneeOut (D : Type) where
  | fromRelation (v : ConsigneeView D)
  | fromSnapshot (snap : Option ConsigneeInput)
  deriving DecidableEq, Repr

/-- The exporter field of the full shipment view. -/
inductive ExporterOut where
  | fromRelation (v : ExporterView)
  | fromSnapshot (snap : Option ExporterInput)
  deriving DecidableEq, Repr

/-- The full detail view (`ShipmentData`) returned by
`getShipmentByIdAction` and `updateShipmentDetailsAction`. -/
structure ShipmentView (D : Type) where
  id : Nat
  referenceNumber : String
  status : String
  consignee : ConsigneeOut D
  exporter : ExporterOut
  shipmentDetails : ShipmentDetailsInput
  documents : List DocEntry
  timeline : List TimelineEntry
  notes : List String
  computations : Option (List (String × String))
  cargo : List String
  statementOfFacts : List String
  deriving DecidableEq, Repr

/-- Resolve the `include: { consignee: … }` relation of a shipment row. -/
def resolveConsignee (db : DB) (s : Shipment) : Option Consignee :=
  s.consigneeId.bind fun cid => db.consignees.find? (·.id == cid)

/-- Resolve the `include: { exporter: true }` relation of a shipment row. -/
def resolveExporter (db : DB) (s : Shipment) : Option Exporter :=
  s.exporterId.bind fun eid => db.exporters.find? (·.id == eid)

/-- Project a shipment row to the full view: prefer the relational entity,
falling back to the JSON snapshot independently per relation.  `mapDoc`
shapes the nested consignee documents (identity in `getShipmentByIdAction`,
a field remap in `updateShipmentDetailsAction`). -/
def projectShipmentWith {D : Type} (db : DB) (mapDoc : ClientDoc → D)
    (s : Shipment) : ShipmentView D :=
  { id := s.id
    referenceNumber := s.referenceNumber
    status := s.status
    consignee :=
      match resolveConsignee db s with
      | some c =>
        .fromRelation
          { id := c.id, name := c.name, address := c.businessAddress
            tin := c.tin, brn := c.brn, contactPerson := c.contactPerson
            contactNumber := c.contactNumber, email := c.email
            documents := (db.clientDocuments.filter (·.consigneeId == c.id)).map mapDoc }
      | none => .fromSnapshot s.consigneeData
    exporter :=
      match resolveExporter db s with
      | some e =>
        .fromRelation
          { id := e.id, name := e.name, address := e.businessAddress
            contactPerson := e.contactPerson, contactNumber := e.contactNumber
            email := e.email }
      | none => .fromSnapshot s.exporterData
    shipmentDetails := s.shipmentDetails
    documents := s.documentsData
    timeline := s.timelineData
    notes := s.notesData
    computations := s.computations
    cargo := s.cargoData.getD []
    statementOfFacts := s.statementOfFactsData.getD [] }

/-- `getShipmentByIdAction`: fetch by `{ id, userId }` with relations;
`null` when missing or not owned, and any error also becomes `null`.
The nested consignee documents are passed through unshaped. -/
def getShipmentByIdAction (session : Option User) (id : Nat) (db : DB) :
    Option (ShipmentView ClientDoc) :=
  match getCurrentUser session with
  | .error _ => none
  | .ok user =>
    match db.shipments.find? (fun s => s.id == id && s.userId == user.id) with
    | none => none
    | some shipment => some (projectShipmentWith db (fun d => d) shipment)

/-! ### updateShipmentStatusAction -/

/-- The optional `timelineUpdate` argument
(`{ stage, status, timestamp }`). -/
structure TimelineUpdate where
  stage : String
  status : String
  timestamp : String
  deriving DecidableEq, Repr

/-- The timeline entry appended by `updateShipmentStatusAction`. -/
def TimelineUpdate.toEntry (u : TimelineUpdate) : TimelineEntry :=
  { stage := some u.stage, status := u.status, timestamp := u.timestamp
    description := none }

/-- `updateShipmentStatusAction`: verify ownership, append the optional
event to the timeline, set the status, touch `updatedAt`; every error is
swallowed to `false` with the datastore untouched. -/
def updateShipmentStatusAction (session : Option User) (id : Nat)
    (status : String) (timelineUpdate : Option TimelineUpdate) (db : DB)
    (now : String) : Bool × DB :=
  match getCurrentUser session with
  | .error _ => (false, db)
  | .ok user =>
    match db.shipments.find? (fun s => s.id == id && s.userId == user.id) with
    | none => (false, db)
    | some shipment =>
      let timeline := shipment.timelineData
      let updatedTimeline :=
        match timelineUpdate with
        | some u => timeline ++ [u.toEntry]
        | none => timeline
      (true,
        { db with
            shipments := db.shipments.map fun s =>
              if s.id == id then
                { s with
                    status := status
                    timelineData := updatedTimeline
                    updatedAt := now }
              else s })

/-! ### updateShipmentDetailsAction -/

/-- The reshaped consignee KYC document returned by
`updateShipmentDetailsAction` (`url` instead of `fileUrl`). -/
structure MappedDoc where
  id : Nat
  name : String
  url : String
  uploadedAt : String
  isVerified : Bool
  deriving DecidableEq, Repr

/-- The document remap of `updateShipmentDetailsAction`'s projection. -/
def ClientDoc.toMapped (d : ClientDoc) : MappedDoc :=
  { id := d.id, name := d.name, url := d.fileUrl
    uploadedAt := d.uploadedAt, isVerified := d.isVerified }

/-- Re-resolution of the consignee link: when the partial update's
consignee carries a truthy id, `findUnique({ where: { id } })` — with no
ownership filter — and on a hit the link becomes that row's id; otherwise
the pre-existing link is kept. -/
def resolveConsigneeId (updates : ShipmentForm) (current : Shipment)
    (db : DB) : Option Nat :=
  match updates.consignee with
  | none => current.consigneeId
  | some c =>
    match c.id with
    | some cid =>
      match db.consignees.find? (·.id == cid) with
      | some consignee => some consignee.id
      | none => current.consigneeId
    | none => current.consigneeId

/-- Re-resolution of the exporter link, mirroring `resolveConsigneeId`. -/
def resolveExporterId (updates : ShipmentForm) (current : Shipment)
    (db : DB) : Option Nat :=
  match updates.exporter with
  | none => current.exporterId
  | some e =>
    match e.id with
    | some eid =>
      match db.exporters.find? (·.id == eid) with
      | some exporter => some exporter.id
      | none => current.exporterId
    | none => current.exporterId

/-- The `updateData` write of `updateShipmentDetailsAction` applied to a
row: each blob present in the partial update is overwritten wholesale, the
client links are replaced with their re-resolved values when the matching
client object is present, absent fields are untouched, `updatedAt` is
touched. -/
def applyDetailsUpdate (updates : ShipmentForm) (newConsigneeId
    newExporterId : Option Nat) (now : String) (s : Shipment) : Shipment :=
  let s₁ := match updates.consignee with
    | none => s
    | some c => { s with consigneeId := newConsigneeId, consigneeData := some c }
  let s₂ := match updates.exporter with
    | none => s₁
    | some e => { s₁ with exporterId := newExporterId, exporterData := some e }
  let s₃ := match updates.shipmentDetails with
    | none => s₂
    | some d => { s₂ with shipmentDetails := d }
  let s₄ := match updates.documents with
    | none => s₃
    | some docs => { s₃ with documentsData := docs }
  let s₅ := match updates.timeline with
    | none => s₄
    | some t => { s₄ with timelineData := t }
  let s₆ := match updates.notes with
    | none => s₅
    | some n => { s₅ with notesData := n }
  let s₇ := match updates.cargo with
    | none => s₆
    | some cg => { s₆ with cargoData := some cg }
  let s₈ := match updates.statementOfFacts with
    | none => s₇
    | some sf => { s₇ with statementOfFactsData := some sf }
  { s₈ with updatedAt := now }

/-- `updateShipmentDetailsAction`: verify shipment ownership, re-resolve
client links, overwrite the supplied blobs, and return the reprojected
view; thrown errors come back as `{ success: false, error: message }`. -/
def updateShipmentDetailsAction (session : Option User) (id : Nat)
    (updates : ShipmentForm) (db : DB) (now : String) :
    Except String (ShipmentView MappedDoc) × DB :=
  match getCurrentUser session with
  | .error msg => (.error msg, db)
  | .ok user =>
    match db.shipments.find? (fun s => s.id == id && s.userId == user.id) with
    | none => (.error "Shipment not found", db)
    | some currentShipment =>
      let newConsigneeId := resolveConsigneeId updates currentShipment db
      let newExporterId := resolveExporterId updates currentShipment db
      let db' :=
        { db with
            shipments := db.shipments.map fun s =>
              if s.id == id then
                applyDetailsUpdate updates newConsigneeId newExporterId now s
              else s }
      let updated :=
        applyDetailsUpdate updates newConsigneeId newExporterId now
          currentShipment
      (.ok (projectShipmentWith db' ClientDoc.toMapped updated), db')

/-! ### linkClientToShipmentAction -/

/-- The interpolated `${type}` of the link action's error message. -/
def ClientType.str : ClientType → String
  | .consignee => "consignee"
  | .exporter => "exporter"

/-- `linkClientToShipmentAction`: verify shipment ownership AND client
ownership before setting the relational foreign key; failures come back as
`{ success: false, error: message }`. -/
def linkClientToShipmentAction (session : Option User) (shipmentId
    clientId : Nat) (type : ClientType) (db : DB) :
    Except String Shipment × DB :=
  match getCurrentUser session with
  | .error msg => (.error msg, db)
  | .ok user =>
    match db.shipments.find? (fun s => s.id == shipmentId && s.userId == user.id) with
    | none => (.error "Shipment not found", db)
    | some shipment =>
      let clientExists : Bool :=
        match type with
        | .consignee =>
          (db.consignees.find? (fun c => c.id == clientId && c.userId == user.id)).isSome
        | .exporter =>
          (db.exporters.find? (fun e => e.id == clientId && e.userId == user.id)).isSome
      if clientExists then
        let setLink (s : Shipment) : Shipment :=
          match type with
          | .consignee => { s with consigneeId := some clientId }
          | .exporter => { s with exporterId := some clientId }
        let db' :=
          { db with
              shipments := db.shipments.map fun s =>
                if s.id == shipmentId then setLink s else s }
        (.ok (setLink shipment), db')
      else (.error (type.str ++ " not found or unauthorized"), db)

/-! ### createClientDuringShipmentAction -/

/-- The payload of `createClientDuringShipmentAction`. -/
structure ClientPayload where
  type : ClientType
  name : String
  address : String
  registeredName : Option String := none
  tin : Option String := none
  brn : Option String := none
  contactPerson : Option String := none
  contactNumber : Option String := none
  email : Option String := none
  deriving DecidableEq, Repr

/-- `createClientDuringShipmentAction`: unconditionally create a standalone
client row for the caller; errors come back as
`{ success: false, error: message }`. -/
def createClientDuringShipmentAction (session : Option User)
    (data : ClientPayload) (db : DB) : Except String (Consignee ⊕ Exporter) × DB :=
  match getCurrentUser session with
  | .error msg => (.error msg, db)
  | .ok user =>
    match data.type with
    | .consignee =>
      let consignee : Consignee :=
        { id := db.nextId
          name := data.name
          businessAddress := data.address
          registeredName := jsOr (jsOrEmpty data.registeredName) data.name
          tin := jsOrEmpty data.tin
          brn := jsOrEmpty data.brn
          contactPerson := jsOrEmpty data.contactPerson
          contactNumber := jsOrEmpty data.contactNumber
          email := jsOrEmpty data.email
          userId := user.id }
      (.ok (.inl consignee),
        { db with
            nextId := db.nextId + 1
            consignees := db.consignees ++ [consignee] })
    | .exporter =>
      let exporter : Exporter :=
        { id := db.nextId
          name := data.name
          businessAddress := data.address
          contactPerson := jsOrEmpty data.contactPerson
          contactNumber := jsOrEmpty data.contactNumber
          email := jsOrEmpty data.email
          userId := user.id }
      (.ok (.inr exporter),
        { db with
            nextId := db.nextId + 1
            exporters := db.exporters ++ [exporter] })

/-! ### Concrete sample data (used by witnesses and counterexamples) -/

/-- A sample authenticated user. -/
def user1 : User := ⟨1⟩

/-- An empty datastore with freshness counter 100. -/
def db0 : DB := ⟨100, [], [], [], []⟩

/-- A consignee form input carrying no id (JS-falsy `consignee.id`). -/
def cInpNoId : ConsigneeInput := ⟨none, "Acme Trading", "Manila", some "123-456", none⟩

/-- The same consignee form input carrying a truthy id. -/
def cInpWithId : ConsigneeInput := ⟨some 5, "Acme Trading", "Manila", some "123-456", none⟩

/-- A creation form whose consignee has a truthy id. -/
def formWithId : ShipmentForm := { consignee := some cInpWithId }

/-- A creation form whose consignee lacks an id. -/
def formNoIdConsignee : ShipmentForm := { consignee := some cInpNoId }

/-- A sample checklist entry. -/
def sampleDocEntry : DocEntry := ⟨"Bill of Lading", "pending", none⟩

/-- A creation form that supplies a non-empty documents checklist. -/
def formWithDocs : ShipmentForm := { documents := some [sampleDocEntry] }

/-- First consignee input of the matching scenario: tin `111`. -/
def cA : ConsigneeInput := ⟨some 1, "Acme Trading", "Manila", some "111", none⟩

/-- Second consignee input: same tin `111`, different name. -/
def cB : ConsigneeInput := ⟨some 2, "Beta Corp", "Cebu", some "111", some "b"⟩

/-- First exporter input of the matching scenario. -/
def eA : ExporterInput := ⟨none, "Global Exports", "Shanghai"⟩

/-- Second exporter input: same name, different address. -/
def eB : ExporterInput := ⟨none, "Global Exports", "Shenzhen"⟩

/-- A consignee row owned by user 1. -/
def consA : Consignee :=
  ⟨10, "Acme Trading", "Acme Trading", "Manila", "111", "", "", "", "", 1⟩

/-- A shipment row owned by user 2 (a user other than `user1`). -/
def shipA : Shipment :=
  { id := 50, referenceNumber := "CLEX-IMS26-0001", freightType := "IMS"
    status := "CLIENT_DETAILS", consigneeId := none, exporterId := none
    userId := 2, consigneeData := none, exporterData := none
    shipmentDetails := {}, documentsData := [], timelineData := []
    notesData := [], computations := some [], cargoData := none
    statementOfFactsData := none, isLocked := false, completionDate := none
    createdAt := "t0", updatedAt := "t0" }

/-- A populated datastore: one consignee of user 1, one shipment of user 2. -/
def dbRich : DB := ⟨300, [consA], [], [shipA], []⟩

/-- A consignee row owned by user 2, i.e. foreign to `user1`. -/
def consForeign : Consignee :=
  ⟨77, "Foreign Co", "Foreign Co", "Taipei", "999", "", "", "", "", 2⟩

/-- A partial-update consignee object referencing the foreign row's id. -/
def cForeignInp : ConsigneeInput := ⟨some 77, "Foreign Co", "Taipei", none, none⟩

/-- A partial update supplying only that consignee object. -/
def updC4 : ShipmentForm := { consignee := some cForeignInp }

/-- A shipment row owned by user 1 with a pre-existing consignee link. -/
def shipB : Shipment :=
  { id := 60, referenceNumber := "CLEX-IMS26-0002", freightType := "IMS"
    status := "CLIENT_DETAILS", consigneeId := some 10, exporterId := none
    userId := 1, consigneeData := none, exporterData := none
    shipmentDetails := {}, documentsData := [], timelineData := []
    notesData := [], computations := some [], cargoData := none
    statementOfFactsData := none, isLocked := false, completionDate := none
    createdAt := "t0", updatedAt := "t0" }

/-- Datastore holding the foreign consignee and `user1`'s shipment. -/
def dbC4 : DB := ⟨400, [consForeign], [], [shipB], []⟩

/-- A partial update supplying only a notes blob. -/
def updC6 : ShipmentForm := { notes := some ["cleared with broker"] }

/-- A shipment of user 1 whose checklist has one entry named Packing List. -/
def shipC : Shipment :=
  { id := 70, referenceNumber := "CLEX-IMS26-0003", freightType := "IMS"
    status := "CLIENT_DETAILS", consigneeId := none, exporterId := none
    userId := 1, consigneeData := none, exporterData := none
    shipmentDetails := {}
    documentsData := [{ name := "Packing List", status := "pending", files := none }]
    timelineData := [], notesData := [], computations := some []
    cargoData := none, statementOfFactsData := none, isLocked := false
    completionDate := none, createdAt := "t0", updatedAt := "t0" }

/-- Datastore holding only `shipC`. -/
def dbC9 : DB := ⟨500, [], [], [shipC], []⟩

/-! ### Helper lemmas: decimal rendering of `Nat` -/

/-- One unfolding step of `Nat.toDigitsCore` at base 10. -/
lemma toDigitsCore_succ (f n : Nat) (l : List Char) :
    Nat.toDigitsCore 10 (f + 1) n l =
      if n / 10 = 0 then Nat.digitChar (n % 10) :: l
      else Nat.toDigitsCore 10 f (n / 10) (Nat.digitChar (n % 10) :: l) := rfl

/-- `Nat.digitChar` of a value below 10 is a decimal digit character. -/
lemma digitChar_isDigit : ∀ r < 10, (Nat.digitChar r).isDigit = true := by decide

/-- Every character `Nat.toDigitsCore` emits at base 10 is a digit. -/
lemma toDigitsCore_digits : ∀ (f n : Nat) (l : List Char),
    (∀ c ∈ l, c.isDigit = true) → ∀ c ∈ Nat.toDigitsCore 10 f n l, c.isDigit = true := by
  intro f
  induction f with
  | zero => intro n l hl; simpa [Nat.toDigitsCore] using hl
  | succ f ih =>
    intro n l hl
    rw [toDigitsCore_succ]
    have hcons : ∀ c ∈ Nat.digitChar (n % 10) :: l, c.isDigit = true := by
      intro c hc
      rcases List.mem_cons.mp hc with rfl | hcl
      · exact digitChar_isDigit _ (Nat.mod_lt _ (by norm_num))
      · exact hl _ hcl
    by_cases h : n / 10 = 0
    · simpa [h] using hcons
    · simpa [h] using ih (n / 10) _ hcons

/-- Every character of `Nat.repr` is a decimal digit. -/
lemma repr_isDigit (n : Nat) : ∀ c ∈ (Nat.repr n).data, c.isDigit = true := by
  intro c hc
  exact toDigitsCore_digits (n + 1) n [] (by simp) c hc

/-- With non-zero fuel, `Nat.toDigitsCore` emits at least one character. -/
lemma toDigitsCore_succ_length_lb : ∀ (f n : Nat) (l : List Char),
    l.length + 1 ≤ (Nat.toDigitsCore 10 (f + 1) n l).length := by
  intro f
  induction f with
  | zero =>
    intro n l
    rw [toDigitsCore_succ]
    by_cases h : n / 10 = 0 <;> simp [h, Nat.toDigitsCore]
  | succ f ih =>
    intro n l
    rw [toDigitsCore_succ]
    by_cases h : n / 10 = 0
    · simp [h]
    · simp only [h, if_false]
      have := ih (n / 10) (Nat.digitChar (n % 10) :: l)
      simp only [List.length_cons] at this
      omega

/-- A number of at least 10 renders to at least two characters. -/
lemma repr_length_lb (y : Nat) (hy : 10 ≤ y) : 2 ≤ (Nat.repr y).length := by
  show 2 ≤ (Nat.toDigitsCore 10 (y + 1) y []).length
  have hdiv : ¬ y / 10 = 0 := by omega
  rw [toDigitsCore_succ]
  simp only [hdiv, if_false]
  rcases y with _ | f
  · omega
  · have := toDigitsCore_succ_length_lb f ((f + 1) / 10) [Nat.digitChar ((f + 1) % 10)]
    simpa using this

/-- `padStart4` pads any string of at most four characters to exactly four. -/
lemma padStart4_length (s : String) (h : s.length ≤ 4) : (padStart4 s).length = 4 := by
  simp only [padStart4, String.length_append]
  have : (String.mk (List.replicate (4 - s.length) '0')).length = 4 - s.length := by
    show (List.replicate (4 - s.length) '0').length = _
    simp
  omega

/-- `padStart4` preserves all-digits (the pad character is `'0'`). -/
lemma padStart4_digits (s : String) (hs : ∀ c ∈ s.data, c.isDigit = true) :
    ∀ c ∈ (padStart4 s).data, c.isDigit = true := by
  intro c hc
  have : (padStart4 s).data = List.replicate (4 - s.length) '0' ++ s.data := rfl
  rw [this] at hc
  rcases List.mem_append.mp hc with hrep | hdat
  · have := List.eq_of_mem_replicate hrep
    subst this; decide
  · exact hs _ hdat

/-- The two-character year slice has length two for any year of at least 10. -/
lemma yearSlice2_length (y : Nat) (hy : 10 ≤ y) : (yearSlice2 y).length = 2 := by
  have h2 := repr_length_lb y hy
  show ((Nat.repr y).drop ((Nat.repr y).length - 2)).data.length = 2
  rw [String.data_drop, List.length_drop]
  have : (Nat.repr y).length = (Nat.repr y).data.length := rfl
  omega

/-- Every character of the year slice is a decimal digit. -/
lemma yearSlice2_digits (y : Nat) : ∀ c ∈ (yearSlice2 y).data, c.isDigit = true := by
  intro c hc
  rw [yearSlice2, String.data_drop] at hc
  exact repr_isDigit y c (List.mem_of_mem_drop hc)

/-! ### Helper lemmas: createShipmentAction -/

/-- Characterization of a creation call with a valid session: the two
find-or-create steps run in order and the inserted shipment row is exactly
as written in the source. -/
lemma create_some (u : User) (t : String) (form : ShipmentForm) (db : DB)
    (now : String) (year draw : Nat) :
    ∃ cid db₁ eid db₂,
      handleConsignee form u.id db = (cid, db₁) ∧
      handleExporter form u.id db₁ = (eid, db₂) ∧
      createShipmentAction (some u) t form db now year draw =
        (.ok { referenceNumber := referenceNumber t year draw
               shipment :=
                 { id := db₂.nextId
                   referenceNumber := referenceNumber t year draw
                   freightType := t
                   status := "CLIENT_DETAILS"
                   consigneeId := cid
                   exporterId := eid
                   userId := u.id
                   consigneeData := form.consignee
                   exporterData := form.exporter
                   shipmentDetails := form.shipmentDetails.getD {}
                   documentsData := form.documents.getD []
                   timelineData := [{ stage := none
                                      status := "CLIENT_DETAILS"
                                      timestamp := now
                                      description := some "Shipment created" }]
                   notesData := []
                   computations := some []
                   cargoData := none
                   statementOfFactsData := none
                   isLocked := false
                   completionDate := none
                   createdAt := now
                   updatedAt := now } },
          { db₂ with
              nextId := db₂.nextId + 1
              shipments := db₂.shipments ++
                [{ id := db₂.nextId
                   referenceNumber := referenceNumber t year draw
                   freightType := t
                   status := "CLIENT_DETAILS"
                   consigneeId := cid
                   exporterId := eid
                   userId := u.id
                   consigneeData := form.consignee
                   exporterData := form.exporter
                   shipmentDetails := form.shipmentDetails.getD {}
                   documentsData := form.documents.getD []
                   timelineData := [{ stage := none
                                      status := "CLIENT_DETAILS"
                                      timestamp := now
                                      description := some "Shipment created" }]
                   notesData := []
                   computations := some []
                   cargoData := none
                   statementOfFactsData := none
                   isLocked := false
                   completionDate := none
                   createdAt := now
                   updatedAt := now }] }) := by
  obtain ⟨cid, db₁, hC⟩ : ∃ cid db₁, handleConsignee form u.id db = (cid, db₁) :=
    ⟨_, _, rfl⟩
  obtain ⟨eid, db₂, hE⟩ : ∃ eid db₂, handleExporter form u.id db₁ = (eid, db₂) :=
    ⟨_, _, rfl⟩
  refine ⟨cid, db₁, eid, db₂, hC, hE, ?_⟩
  simp only [createShipmentAction, getCurrentUser, hC, hE]

/-- `handleConsignee` with no consignee object is a no-op. -/
lemma handleConsignee_no_input (form : ShipmentForm) (uid : Nat) (db : DB)
    (h : form.consignee = none) : handleConsignee form uid db = (none, db) := by
  simp [handleConsignee, h]

/-- `handleConsignee` with a consignee object lacking an id is a no-op:
the nested `if (formData.consignee.id)` gate fails. -/
lemma handleConsignee_no_id (form : ShipmentForm) (uid : Nat) (db : DB)
    (c : ConsigneeInput) (h : form.consignee = some c) (hid : c.id = none) :
    handleConsignee form uid db = (none, db) := by
  simp [handleConsignee, h, idTruthy, hid]

/-- `handleConsignee` on a lookup hit reuses the existing row's id. -/
lemma handleConsignee_found (form : ShipmentForm) (uid : Nat) (db : DB)
    (c : ConsigneeInput) (ex : Consignee) (h : form.consignee = some c)
    (hid : c.id ≠ none)
    (hfind : db.consignees.find? (consigneeWhere c uid) = some ex) :
    handleConsignee form uid db = (some ex.id, db) := by
  simp [handleConsignee, h, idTruthy, Option.isSome_iff_ne_none, hid, hfind]

/-- `handleConsignee` on a lookup miss inserts the defaulted new row. -/
lemma handleConsignee_miss (form : ShipmentForm) (uid : Nat) (db : DB)
    (c : ConsigneeInput) (h : form.consignee = some c) (hid : c.id ≠ none)
    (hfind : db.consignees.find? (consigneeWhere c uid) = none) :
    handleConsignee form uid db =
      (some db.nextId,
        { db with
            nextId := db.nextId + 1
            consignees := db.consignees ++
              [{ id := db.nextId
                 name := c.name
                 registeredName := c.name
                 businessAddress := c.address
                 tin := jsOrEmpty c.tin
                 brn := jsOrEmpty c.brn
                 contactPerson := jsOrEmpty (form.shipmentDetails.bind (·.contact_person))
                 contactNumber := jsOrEmpty (form.shipmentDetails.bind (·.contact_number))
                 email := ""
                 userId := uid }] }) := by
  simp [handleConsignee, h, idTruthy, Option.isSome_iff_ne_none, hid, hfind]

/-- `handleExporter` with no exporter object is a no-op. -/
lemma handleExporter_no_input (form : ShipmentForm) (uid : Nat) (db : DB)
    (h : form.exporter = none) : handleExporter form uid db = (none, db) := by
  simp [handleExporter, h]

/-- `handleExporter` on a lookup hit reuses the existing row's id. -/
lemma handleExporter_found (form : ShipmentForm) (uid : Nat) (db : DB)
    (e : ExporterInput) (ex : Exporter) (h : form.exporter = some e)
    (hfind : db.exporters.find? (exporterWhere e uid) = some ex) :
    handleExporter form uid db = (some ex.id, db) := by
  simp [handleExporter, h, hfind]

/-- `handleExporter` on a lookup miss inserts the new row. -/
lemma handleExporter_miss (form : ShipmentForm) (uid : Nat) (db : DB)
    (e : ExporterInput) (h : form.exporter = some e)
    (hfind : db.exporters.find? (exporterWhere e uid) = none) :
    handleExporter form uid db =
      (some db.nextId,
        { db with
            nextId := db.nextId + 1
            exporters := db.exporters ++
              [{ id := db.nextId
                 name := e.name
                 businessAddress := e.address
                 contactPerson := ""
                 contactNumber := ""
                 email := ""
                 userId := uid }] }) := by
  simp [handleExporter, h, hfind]

/-- The consignee id resulting from creation is `null` exactly when the
consignee object is absent or carries no id. -/
lemma handleConsignee_gate (form : ShipmentForm) (uid : Nat) (db : DB) :
    (handleConsignee form uid db).1 = none ↔
      form.consignee = none ∨ ∃ c, form.consignee = some c ∧ c.id = none := by
  rcases h : form.consignee with _ | c
  · simp [handleConsignee_no_input form uid db h]
  · rcases hid : c.id with _ | i
    · simp [handleConsignee_no_id form uid db c h hid, hid]
    · rcases hfind : db.consignees.find? (consigneeWhere c uid) with _ | ex
      · simp [handleConsignee_miss form uid db c h (by simp [hid]) hfind, hid]
      · simp [handleConsignee_found form uid db c ex h (by simp [hid]) hfind, hid]

/-- `handleConsignee` only touches the consignee table. -/
lemma handleConsignee_exporters (form : ShipmentForm) (uid : Nat) (db : DB) :
    (handleConsignee form uid db).2.exporters = db.exporters ∧
    (handleConsignee form uid db).2.shipments = db.shipments := by
  rcases h : form.consignee with _ | c
  · simp [handleConsignee, h]
  · simp only [handleConsignee, h]
    by_cases hid : idTruthy c.id
    · rcases hfind : db.consignees.find? (consigneeWhere c uid) with _ | ex <;>
        simp [hid, hfind]
    · simp [hid]

/-- `handleExporter` only touches the exporter table. -/
lemma handleExporter_consignees (form : ShipmentForm) (uid : Nat) (db : DB) :
    (handleExporter form uid db).2.consignees = db.consignees ∧
    (handleExporter form uid db).2.shipments = db.shipments := by
  rcases h : form.exporter with _ | e
  · simp [handleExporter, h]
  · simp only [handleExporter, h]
    rcases hfind : db.exporters.find? (exporterWhere e uid) with _ | ex <;>
      simp [hfind]

/-- Creation with only a consignee object (truthy id) whose lookup misses:
one new consignee row appears with the input's data. -/
lemma create_consignee_only_miss (u : User) (db : DB) (t now : String)
    (year d : Nat) (c : ConsigneeInput) (hid : c.id ≠ none)
    (hfind : db.consignees.find? (consigneeWhere c u.id) = none) :
    ∃ r db',
      createShipmentAction (some u) t { consignee := some c } db now year d =
        (.ok r, db') ∧
      r.shipment.consigneeId = some db.nextId ∧
      (∃ row, db'.consignees = db.consignees ++ [row] ∧ row.id = db.nextId ∧
        row.tin = jsOrEmpty c.tin ∧ row.name = c.name ∧
        row.businessAddress = c.address ∧ row.userId = u.id) ∧
      db'.nextId = db.nextId + 2 ∧ db'.exporters = db.exporters := by
  obtain ⟨cid, dbA, eid, dbB, hC, hE, heq⟩ :=
    create_some u t { consignee := some c } db now year d
  have hm := handleConsignee_miss { consignee := some c } u.id db c rfl hid hfind
  rw [hC] at hm
  obtain ⟨h1, h2⟩ := Prod.mk.injEq .. |>.mp hm
  subst h1 h2
  rw [handleExporter_no_input { consignee := some c } u.id _ rfl] at hE
  obtain ⟨h3, h4⟩ := Prod.mk.injEq .. |>.mp hE
  subst h3 h4
  exact ⟨_, _, heq, rfl, ⟨_, rfl, rfl, rfl, rfl, rfl, rfl⟩, rfl, rfl⟩

/-- Creation with only a consignee object (truthy id) whose lookup hits:
the existing row's id is reused and no row is inserted. -/
lemma create_consignee_only_found (u : User) (db : DB) (t now : String)
    (year d : Nat) (c : ConsigneeInput) (row : Consignee) (hid : c.id ≠ none)
    (hfind : db.consignees.find? (consigneeWhere c u.id) = some row) :
    ∃ r db',
      createShipmentAction (some u) t { consignee := some c } db now year d =
        (.ok r, db') ∧
      r.shipment.consigneeId = some row.id ∧
      db'.consignees = db.consignees := by
  obtain ⟨cid, dbA, eid, dbB, hC, hE, heq⟩ :=
    create_some u t { consignee := some c } db now year d
  have hm := handleConsignee_found { consignee := some c } u.id db c row rfl hid hfind
  rw [hC] at hm
  obtain ⟨h1, h2⟩ := Prod.mk.injEq .. |>.mp hm
  subst h1 h2
  rw [handleExporter_no_input { consignee := some c } u.id _ rfl] at hE
  obtain ⟨h3, h4⟩ := Prod.mk.injEq .. |>.mp hE
  subst h3 h4
  exact ⟨_, _, heq, rfl, rfl⟩

/-- Creation with only an exporter object whose lookup misses: one new
exporter row appears with the input's data. -/
lemma create_exporter_only_miss (u : User) (db : DB) (t now : String)
    (year d : Nat) (e : ExporterInput)
    (hfind : db.exporters.find? (exporterWhere e u.id) = none) :
    ∃ r db',
      createShipmentAction (some u) t { exporter := some e } db now year d =
        (.ok r, db') ∧
      r.shipment.exporterId = some db.nextId ∧
      (∃ row, db'.exporters = db.exporters ++ [row] ∧ row.id = db.nextId ∧
        row.name = e.name ∧ row.businessAddress = e.address ∧
        row.userId = u.id) ∧
      db'.nextId = db.nextId + 2 := by
  obtain ⟨cid, dbA, eid, dbB, hC, hE, heq⟩ :=
    create_some u t { exporter := some e } db now year d
  have hm := handleConsignee_no_input { exporter := some e } u.id db rfl
  rw [hC] at hm
  obtain ⟨h1, h2⟩ := Prod.mk.injEq .. |>.mp hm
  subst h1
  rw [h2] at hE
  have hx := handleExporter_miss { exporter := some e } u.id db e rfl hfind
  rw [hx] at hE
  obtain ⟨h3, h4⟩ := Prod.mk.injEq .. |>.mp hE
  subst h3 h4
  exact ⟨_, _, heq, rfl, ⟨_, rfl, rfl, rfl, rfl, rfl⟩, rfl⟩

/-! ### Helper lemmas: the update actions -/

/-- Field-by-field behaviour of `applyDetailsUpdate`: supplied blobs are
replaced wholesale, absent ones kept, the rest of the row untouched except
`updatedAt`. -/
lemma applyDetailsUpdate_proj (updates : ShipmentForm)
    (ncid neid : Option Nat) (now : String) (s : Shipment) :
    (applyDetailsUpdate updates ncid neid now s).consigneeId =
      (match updates.consignee with | none => s.consigneeId | some _ => ncid) ∧
    (applyDetailsUpdate updates ncid neid now s).consigneeData =
      (match updates.consignee with | none => s.consigneeData | some c => some c) ∧
    (applyDetailsUpdate updates ncid neid now s).exporterId =
      (match updates.exporter with | none => s.exporterId | some _ => neid) ∧
    (applyDetailsUpdate updates ncid neid now s).exporterData =
      (match updates.exporter with | none => s.exporterData | some e => some e) ∧
    (applyDetailsUpdate updates ncid neid now s).shipmentDetails =
      (match updates.shipmentDetails with | none => s.shipmentDetails | some d => d) ∧
    (applyDetailsUpdate updates ncid neid now s).documentsData =
      (match updates.documents with | none => s.documentsData | some d => d) ∧
    (applyDetailsUpdate updates ncid neid now s).timelineData =
      (match updates.timeline with | none => s.timelineData | some tl => tl) ∧
    (applyDetailsUpdate updates ncid neid now s).notesData =
      (match updates.notes with | none => s.notesData | some n => n) ∧
    (applyDetailsUpdate updates ncid neid now s).cargoData =
      (match updates.cargo with | none => s.cargoData | some cg => some cg) ∧
    (applyDetailsUpdate updates ncid neid now s).statementOfFactsData =
      (match updates.statementOfFacts with
       | none => s.statementOfFactsData | some f => some f) ∧
    (applyDetailsUpdate updates ncid neid now s).status = s.status ∧
    (applyDetailsUpdate updates ncid neid now s).id = s.id ∧
    (applyDetailsUpdate updates ncid neid now s).referenceNumber = s.referenceNumber ∧
    (applyDetailsUpdate updates ncid neid now s).userId = s.userId ∧
    (applyDetailsUpdate updates ncid neid now s).updatedAt = now := by
  obtain ⟨uc, ue, usd, ud, ut, un, ucg, usf⟩ := updates
  simp only [applyDetailsUpdate]
  cases uc <;> cases ue <;> cases usd <;> cases ud <;> cases ut <;> cases un <;>
    cases ucg <;> cases usf <;> simp

/-- Reduction of `updateShipmentDetailsAction` once the owned shipment is
found: the datastore maps the update over the matching row and the
reprojected view is returned. -/
lemma updateShipmentDetails_some (u : User) (id : Nat) (updates : ShipmentForm)
    (db : DB) (now : String) (cur : Shipment)
    (hfind : db.shipments.find? (fun s => s.id == id && s.userId == u.id) = some cur) :
    updateShipmentDetailsAction (some u) id updates db now =
      (.ok (projectShipmentWith
              { db with
                  shipments := db.shipments.map fun s =>
                    if s.id == id then
                      applyDetailsUpdate updates (resolveConsigneeId updates cur db)
                        (resolveExporterId updates cur db) now s
                    else s }
              ClientDoc.toMapped
              (applyDetailsUpdate updates (resolveConsigneeId updates cur db)
                (resolveExporterId updates cur db) now cur)),
        { db with
            shipments := db.shipments.map fun s =>
              if s.id == id then
                applyDetailsUpdate updates (resolveConsigneeId updates cur db)
                  (resolveExporterId updates cur db) now s
              else s }) := by
  simp only [updateShipmentDetailsAction, getCurrentUser, hfind]

/-- Reduction of `updateShipmentStatusAction` once the owned shipment is
found. -/
lemma updateShipmentStatus_some (u : User) (id : Nat) (st : String)
    (ev : Option TimelineUpdate) (db : DB) (now : String) (cur : Shipment)
    (hfind : db.shipments.find? (fun s => s.id == id && s.userId == u.id) = some cur) :
    updateShipmentStatusAction (some u) id st ev db now =
      (true,
        { db with
            shipments := db.shipments.map fun s =>
              if s.id == id then
                { s with
                    status := st
                    timelineData :=
                      match ev with
                      | some e => cur.timelineData ++ [e.toEntry]
                      | none => cur.timelineData
                    updatedAt := now }
              else s }) := by
  simp only [updateShipmentStatusAction, getCurrentUser, hfind]

/-- Reduction of `processDocumentUploadAction` once the owned shipment is
found. -/
lemma processDocumentUpload_some (u : User) (sid : Nat) (dt fn : String)
    (db : DB) (ts : String) (cur : Shipment)
    (hfind : db.shipments.find? (fun s => s.id == sid && s.userId == u.id) = some cur) :
    processDocumentUploadAction (some u) sid dt fn db ts =
      (.ok { fileUrl := "/simulated-uploads/" ++ Nat.repr sid ++ "/" ++ dt
               ++ "-" ++ ts ++ "-" ++ fn
             status := "draft" },
        { db with
            shipments := db.shipments.map fun s =>
              if s.id == sid then
                { s with
                    documentsData := cur.documentsData.map
                      (applyUpload dt ("/simulated-uploads/" ++ Nat.repr sid ++ "/"
                        ++ dt ++ "-" ++ ts ++ "-" ++ fn)) }
              else s }) := by
  simp only [processDocumentUploadAction, getCurrentUser, hfind]

/-! ### The claims -/

/-- C1 (amended): the find-or-create consignee step of `createShipment`
runs only when the supplied consignee object carries a truthy id; it then
searches the caller's consignees by (tin matches OR name matches), reuses
the hit or inserts a defaulted new row on a miss; the resulting consignee
id is null exactly when no consignee input is supplied or the input's id
field is absent. -/
theorem c1_find_or_create (u : User) (t : String) (form : ShipmentForm)
    (db : DB) (now : String) (year draw : Nat) :
    ∃ r db', createShipmentAction (some u) t form db now year draw = (.ok r, db') ∧
      (r.shipment.consigneeId = none ↔
        form.consignee = none ∨ ∃ c, form.consignee = some c ∧ c.id = none) ∧
      (∀ c, form.consignee = some c → c.id ≠ none →
        (∃ existing, db.consignees.find? (consigneeWhere c u.id) = some existing ∧
           r.shipment.consigneeId = some existing.id ∧
           db'.consignees = db.consignees) ∨
        (db.consignees.find? (consigneeWhere c u.id) = none ∧
           r.shipment.consigneeId = some db.nextId ∧
           db'.consignees = db.consignees ++
             [{ id := db.nextId
                name := c.name
                registeredName := c.name
                businessAddress := c.address
                tin := jsOrEmpty c.tin
                brn := jsOrEmpty c.brn
                contactPerson := jsOrEmpty (form.shipmentDetails.bind (·.contact_person))
                contactNumber := jsOrEmpty (form.shipmentDetails.bind (·.contact_number))
                email := ""
                userId := u.id }])) := by
  obtain ⟨cid, db₁, eid, db₂, hC, hE, heq⟩ := create_some u t form db now year draw
  have hdb₂ : db₂.consignees = db₁.consignees := by
    have := (handleExporter_consignees form u.id db₁).1
    rw [hE] at this
    exact this
  refine ⟨_, _, heq, ?_, ?_⟩
  · have := handleConsignee_gate form u.id db
    rw [hC] at this
    exact this
  · intro c hform hid
    rcases hfind : db.consignees.find? (consigneeWhere c u.id) with _ | ex
    · right
      have hm := handleConsignee_miss form u.id db c hform hid hfind
      rw [hC] at hm
      obtain ⟨h1, h2⟩ := Prod.mk.injEq .. |>.mp hm.symm
      refine ⟨rfl, h1.symm ▸ rfl, ?_⟩
      show db₂.consignees = _
      rw [hdb₂, ← h2]
    · left
      have hm := handleConsignee_found form u.id db c ex hform hid hfind
      rw [hC] at hm
      obtain ⟨h1, h2⟩ := Prod.mk.injEq .. |>.mp hm.symm
      refine ⟨ex, rfl, h1.symm ▸ rfl, ?_⟩
      show db₂.consignees = _
      rw [hdb₂, ← h2]

/-- C1 witness: on the empty datastore, a consignee input with a truthy id
misses the lookup, so a row is created and linked. -/
theorem c1_witness :
    ∃ r db', createShipmentAction (some user1) "IMS" formWithId db0 "t0" 2026 7 =
        (.ok r, db') ∧
      r.shipment.consigneeId = some 100 ∧ db'.consignees.length = 1 := by
  obtain ⟨r, db', heq, hiff, hrun⟩ :=
    c1_find_or_create user1 "IMS" formWithId db0 "t0" 2026 7
  rcases hrun cInpWithId rfl (by decide) with ⟨ex, hfind, -, -⟩ | ⟨-, hcid, hcons⟩
  · have hnone : List.find? (consigneeWhere cInpWithId user1.id) db0.consignees = none := rfl
    rw [hnone] at hfind
    exact Option.noConfusion hfind
  · refine ⟨r, db', heq, hcid, by rw [hcons]; decide⟩

/-- C1 counterexample: a consignee object without an id is supplied, yet
no find-or-create runs — no row is created and the stored consignee id is
null, refuting the claim that the step runs for every consignee object. -/
theorem c1_counterexample :
    formNoIdConsignee.consignee ≠ none ∧
    (createShipmentAction (some user1) "IMS" formNoIdConsignee db0 "t0" 2026 7).1.map
        (fun r => r.shipment.consigneeId) = .ok none ∧
    (createShipmentAction (some user1) "IMS" formNoIdConsignee db0 "t0" 2026 7).2.consignees
      = [] := by
  refine ⟨by decide, rfl, rfl⟩

/-- C2 (amended): with no valid session every operation fails closed —
`getCurrentUser` throws `Unauthorized` internally — but the error is
swallowed at each operation's boundary rather than propagated: the list
and read operations return `[]` / `{success:false,data:[]}` / `null`,
`updateShipmentStatus` returns `false`, creation and upload rethrow
generic messages, and the remaining mutations return a
`{success:false, error}` shape. -/
theorem c2_unauthorized_swallowed (db : DB) (t : String) (form : ShipmentForm)
    (ty : ClientType) (id cid : Nat) (st now ts fn dt : String)
    (ev : Option TimelineUpdate) (updates : ShipmentForm) (year draw : Nat)
    (payload : ClientPayload) :
    createShipmentAction none t form db now year draw =
      (.error "Failed to create shipment", db) ∧
    getSavedEntitiesAction none ty db = [] ∧
    processDocumentUploadAction none id dt fn db ts =
      (.error "Failed to process document upload", db) ∧
    getShipmentsAction none db = { success := false, data := [] } ∧
    getShipmentByIdAction none id db = none ∧
    updateShipmentStatusAction none id st ev db now = (false, db) ∧
    updateShipmentDetailsAction none id updates db now = (.error "Unauthorized", db) ∧
    linkClientToShipmentAction none id cid ty db = (.error "Unauthorized", db) ∧
    createClientDuringShipmentAction none payload db = (.error "Unauthorized", db) :=
  ⟨rfl, rfl, rfl, rfl, rfl, rfl, rfl, rfl, rfl⟩

/-- C2 counterexample: on a datastore that does contain data, a
session-less caller receives the empty list, the `success:false` empty
result, `null`, and `false` — the conversions the claim says never
happen. -/
theorem c2_counterexample :
    getSavedEntitiesAction none .consignee dbRich = [] ∧
    getShipmentsAction none dbRich = { success := false, data := [] } ∧
    getShipmentByIdAction none 50 dbRich = none ∧
    updateShipmentStatusAction none 50 "TAX_COMPUTATION" none dbRich "t1" =
      (false, dbRich) ∧
    dbRich.consignees ≠ [] ∧ dbRich.shipments ≠ [] :=
  ⟨rfl, rfl, rfl, rfl, by decide, by decide⟩

/-- C3 (amended): every successful creation stores status
`CLIENT_DETAILS`, a timeline holding exactly the one creation event with
the current timestamp, empty notes and computations — and a documents
blob initialized from `formData.documents`, empty only when that field is
absent. -/
theorem c3_initial_state (u : User) (t : String) (form : ShipmentForm)
    (db : DB) (now : String) (year draw : Nat) :
    ∃ r db', createShipmentAction (some u) t form db now year draw = (.ok r, db') ∧
      r.shipment.status = "CLIENT_DETAILS" ∧
      r.shipment.timelineData =
        [{ stage := none, status := "CLIENT_DETAILS", timestamp := now,
           description := some "Shipment created" }] ∧
      r.shipment.notesData = [] ∧
      r.shipment.computations = some [] ∧
      r.shipment.documentsData = form.documents.getD [] ∧
      db'.shipments.getLast? = some r.shipment := by
  obtain ⟨cid, db₁, eid, db₂, hC, hE, heq⟩ := create_some u t form db now year draw
  refine ⟨_, _, heq, rfl, rfl, rfl, rfl, rfl, ?_⟩
  simp

/-- C3 counterexample: a creation call whose form carries a checklist
stores that checklist, so the documents blob is not initialized empty. -/
theorem c3_counterexample :
    (createShipmentAction (some user1) "IMS" formWithDocs db0 "t0" 2026 7).1.map
        (fun r => r.shipment.documentsData) =
      .ok [{ name := "Bill of Lading", status := "pending", files := none }] ∧
    [({ name := "Bill of Lading", status := "pending", files := none } : DocEntry)] ≠
      ([] : List DocEntry) := by
  refine ⟨rfl, by simp⟩

/-- C4: `updateShipmentDetails` re-resolves the consignee/exporter link by
bare id — `findUnique({where:{id}})` with no ownership filter, so a row
owned by any user (the hypothesis places no constraint on `row.userId`) is
linked; when the id is absent or matches no row the pre-existing link is
kept while the snapshot blob is still overwritten. Only the shipment's own
ownership is checked, via `hfind`. -/
theorem c4_link_without_client_ownership_check (u : User) (id : Nat)
    (updates : ShipmentForm) (db : DB) (now : String) (cur : Shipment)
    (hfind : db.shipments.find? (fun s => s.id == id && s.userId == u.id) = some cur) :
    ∃ v db', updateShipmentDetailsAction (some u) id updates db now = (.ok v, db') ∧
      (∀ c, updates.consignee = some c →
        (∀ cid row, c.id = some cid →
          db.consignees.find? (·.id == cid) = some row →
          ∀ s ∈ db'.shipments, s.id = id →
            s.consigneeId = some cid ∧ s.consigneeData = some c) ∧
        (c.id = none →
          ∀ s ∈ db'.shipments, s.id = id →
            s.consigneeId = cur.consigneeId ∧ s.consigneeData = some c) ∧
        (∀ cid, c.id = some cid →
          db.consignees.find? (·.id == cid) = none →
          ∀ s ∈ db'.shipments, s.id = id →
            s.consigneeId = cur.consigneeId ∧ s.consigneeData = some c)) ∧
      (∀ e, updates.exporter = some e →
        (∀ eid row, e.id = some eid →
          db.exporters.find? (·.id == eid) = some row →
          ∀ s ∈ db'.shipments, s.id = id →
            s.exporterId = some eid ∧ s.exporterData = some e) ∧
        (e.id = none →
          ∀ s ∈ db'.shipments, s.id = id →
            s.exporterId = cur.exporterId ∧ s.exporterData = some e) ∧
        (∀ eid, e.id = some eid →
          db.exporters.find? (·.id == eid) = none →
          ∀ s ∈ db'.shipments, s.id = id →
            s.exporterId = cur.exporterId ∧ s.exporterData = some e)) := by
  rw [updateShipmentDetails_some u id updates db now cur hfind]
  refine ⟨_, _, rfl, ?_, ?_⟩
  · intro c hc
    have hget : ∀ s ∈ (db.shipments.map fun s =>
        if s.id == id then
          applyDetailsUpdate updates (resolveConsigneeId updates cur db)
            (resolveExporterId updates cur db) now s
        else s), s.id = id →
        s.consigneeId = resolveConsigneeId updates cur db ∧
        s.consigneeData = some c := by
      intro s hs hsid
      obtain ⟨a, ha, rfl⟩ := List.mem_map.mp hs
      by_cases hai : (a.id == id) = true
      · rw [if_pos hai]
        rw [if_pos hai] at hsid
        obtain ⟨p1, p2, -⟩ := applyDetailsUpdate_proj updates
          (resolveConsigneeId updates cur db) (resolveExporterId updates cur db) now a
        rw [p1, p2, hc]
        exact ⟨rfl, rfl⟩
      · rw [if_neg hai] at hsid ⊢
        exact absurd (beq_iff_eq.mpr hsid) hai
    refine ⟨?_, ?_, ?_⟩
    · intro cid row hcid hrow s hs hsid
      have hresolve : resolveConsigneeId updates cur db = some cid := by
        have hrid : row.id = cid := by
          have hb := List.find?_some hrow
          simpa using hb
        simp [resolveConsigneeId, hc, hcid, hrow, hrid]
      obtain ⟨h1, h2⟩ := hget s hs hsid
      exact ⟨hresolve ▸ h1, h2⟩
    · intro hcid s hs hsid
      have hresolve : resolveConsigneeId updates cur db = cur.consigneeId := by
        simp [resolveConsigneeId, hc, hcid]
      obtain ⟨h1, h2⟩ := hget s hs hsid
      exact ⟨hresolve ▸ h1, h2⟩
    · intro cid hcid hrow s hs hsid
      have hresolve : resolveConsigneeId updates cur db = cur.consigneeId := by
        simp [resolveConsigneeId, hc, hcid, hrow]
      obtain ⟨h1, h2⟩ := hget s hs hsid
      exact ⟨hresolve ▸ h1, h2⟩
  · intro e he
    have hget : ∀ s ∈ (db.shipments.map fun s =>
        if s.id == id then
          applyDetailsUpdate updates (resolveConsigneeId updates cur db)
            (resolveExporterId updates cur db) now s
        else s), s.id = id →
        s.exporterId = resolveExporterId updates cur db ∧
        s.exporterData = some e := by
      intro s hs hsid
      obtain ⟨a, ha, rfl⟩ := List.mem_map.mp hs
      by_cases hai : (a.id == id) = true
      · rw [if_pos hai]
        rw [if_pos hai] at hsid
        obtain ⟨-, -, p3, p4, -⟩ := applyDetailsUpdate_proj updates
          (resolveConsigneeId updates cur db) (resolveExporterId updates cur db) now a
        rw [p3, p4, he]
        exact ⟨rfl, rfl⟩
      · rw [if_neg hai] at hsid ⊢
        exact absurd (beq_iff_eq.mpr hsid) hai
    refine ⟨?_, ?_, ?_⟩
    · intro eid row heid hrow s hs hsid
      have hresolve : resolveExporterId updates cur db = some eid := by
        have hrid : row.id = eid := by
          have hb := List.find?_some hrow
          simpa using hb
        simp [resolveExporterId, he, heid, hrow, hrid]
      obtain ⟨h1, h2⟩ := hget s hs hsid
      exact ⟨hresolve ▸ h1, h2⟩
    · intro heid s hs hsid
      have hresolve : resolveExporterId updates cur db = cur.exporterId := by
        simp [resolveExporterId, he, heid]
      obtain ⟨h1, h2⟩ := hget s hs hsid
      exact ⟨hresolve ▸ h1, h2⟩
    · intro eid heid hrow s hs hsid
      have hresolve : resolveExporterId updates cur db = cur.exporterId := by
        simp [resolveExporterId, he, heid, hrow]
      obtain ⟨h1, h2⟩ := hget s hs hsid
      exact ⟨hresolve ▸ h1, h2⟩

/-- C4 witness: the consignee row with id 77 is owned by user 2, yet an
update by user 1 links it to user 1's shipment. -/
theorem c4_witness :
    consForeign.userId ≠ user1.id ∧
    ∃ v db', updateShipmentDetailsAction (some user1) 60 updC4 dbC4 "t1" =
        (.ok v, db') ∧
      ∀ s ∈ db'.shipments, s.id = 60 → s.consigneeId = some 77 := by
  refine ⟨by decide, ?_⟩
  obtain ⟨v, db', heq, hcons, -⟩ :=
    c4_link_without_client_ownership_check user1 60 updC4 dbC4 "t1" shipB (by decide)
  obtain ⟨h1, -, -⟩ := hcons cForeignInp rfl
  exact ⟨v, db', heq, fun s hs hid =>
    (h1 77 consForeign rfl (by decide) s hs hid).1⟩

/-- C5: client matching is asymmetric.  Starting from a datastore holding
no client rows of the caller: two consignee inputs (with truthy ids, as
the find-or-create gate requires) sharing a tin but differing in name make
the second call reuse the first call's row (OR over tin/name), while two
exporter inputs sharing a name but differing in address make the second
call insert a fresh row with a different id (AND over name/address). -/
theorem c5_matching_asymmetry (u : User) (db : DB) (t : String) (year : Nat)
    (now₁ now₂ : String) (d₁ d₂ : Nat) :
    (∀ (c₁ c₂ : ConsigneeInput) (tinv : String),
      (∀ r ∈ db.consignees, r.userId ≠ u.id) →
      c₁.id ≠ none → c₂.id ≠ none →
      c₁.tin = some tinv → c₂.tin = some tinv → c₁.name ≠ c₂.name →
      ∃ r₁ db₁ r₂ db₂,
        createShipmentAction (some u) t { consignee := some c₁ } db now₁ year d₁ =
          (.ok r₁, db₁) ∧
        createShipmentAction (some u) t { consignee := some c₂ } db₁ now₂ year d₂ =
          (.ok r₂, db₂) ∧
        r₁.shipment.consigneeId = some db.nextId ∧
        r₂.shipment.consigneeId = r₁.shipment.consigneeId ∧
        db₂.consignees = db₁.consignees) ∧
    (∀ (e₁ e₂ : ExporterInput),
      (∀ r ∈ db.exporters, r.userId ≠ u.id) →
      e₁.name = e₂.name → e₁.address ≠ e₂.address →
      ∃ r₁ db₁ r₂ db₂,
        createShipmentAction (some u) t { exporter := some e₁ } db now₁ year d₁ =
          (.ok r₁, db₁) ∧
        createShipmentAction (some u) t { exporter := some e₂ } db₁ now₂ year d₂ =
          (.ok r₂, db₂) ∧
        r₂.shipment.exporterId ≠ r₁.shipment.exporterId ∧
        db₂.exporters.length = db₁.exporters.length + 1) := by
  constructor
  · intro c₁ c₂ tinv hclean hid₁ hid₂ htin₁ htin₂ hname
    have hfind₁ : db.consignees.find? (consigneeWhere c₁ u.id) = none := by
      rw [List.find?_eq_none]
      intro x hx
      simp only [consigneeWhere, Bool.and_eq_true, beq_iff_eq]
      rintro ⟨-, h⟩
      exact hclean x hx h
    obtain ⟨r₁, db₁, heq1, hcid1, ⟨row, hrowapp, hrowid, hrowtin, hrowname,
      hrowaddr, hrowuid⟩, hnext1, -⟩ :=
      create_consignee_only_miss u db t now₁ year d₁ c₁ hid₁ hfind₁
    have hfind₂ : db₁.consignees.find? (consigneeWhere c₂ u.id) = some row := by
      have hnone : db.consignees.find? (consigneeWhere c₂ u.id) = none := by
        rw [List.find?_eq_none]
        intro x hx
        simp only [consigneeWhere, Bool.and_eq_true, beq_iff_eq]
        rintro ⟨-, h⟩
        exact hclean x hx h
      have hmatch : consigneeWhere c₂ u.id row = true := by
        simp [consigneeWhere, htin₂, hrowtin, htin₁, jsOrEmpty, hrowuid]
      rw [hrowapp, List.find?_append, hnone]
      simp [List.find?, hmatch]
    obtain ⟨r₂, db₂, heq2, hcid2, hcons2⟩ :=
      create_consignee_only_found u db₁ t now₂ year d₂ c₂ row hid₂ hfind₂
    exact ⟨r₁, db₁, r₂, db₂, heq1, heq2, hcid1,
      by rw [hcid2, hcid1, hrowid], hcons2⟩
  · intro e₁ e₂ hclean hnameeq haddrne
    have hfind₁ : db.exporters.find? (exporterWhere e₁ u.id) = none := by
      rw [List.find?_eq_none]
      intro x hx
      simp only [exporterWhere, Bool.and_eq_true, beq_iff_eq]
      rintro ⟨-, h⟩
      exact hclean x hx h
    obtain ⟨r₁, db₁, heq1, heid1, ⟨row, hrowapp, hrowid, hrowname, hrowaddr,
      hrowuid⟩, hnext1⟩ :=
      create_exporter_only_miss u db t now₁ year d₁ e₁ hfind₁
    have hfind₂ : db₁.exporters.find? (exporterWhere e₂ u.id) = none := by
      have hnone : db.exporters.find? (exporterWhere e₂ u.id) = none := by
        rw [List.find?_eq_none]
        intro x hx
        simp only [exporterWhere, Bool.and_eq_true, beq_iff_eq]
        rintro ⟨-, h⟩
        exact hclean x hx h
      have hmatch : exporterWhere e₂ u.id row = false := by
        have haddr : (row.businessAddress == e₂.address) = false := by
          rw [hrowaddr]
          exact beq_eq_false_iff_ne.mpr haddrne
        simp [exporterWhere, haddr]
      rw [hrowapp, List.find?_append, hnone]
      simp [List.find?, hmatch]
    obtain ⟨r₂, db₂, heq2, heid2, ⟨row₂, hrowapp₂, -, -, -, -⟩, -⟩ :=
      create_exporter_only_miss u db₁ t now₂ year d₂ e₂ hfind₂
    refine ⟨r₁, db₁, r₂, db₂, heq1, heq2, ?_, ?_⟩
    · rw [heid2, heid1, hnext1]
      simp
    · rw [hrowapp₂]
      simp

/-- C5 witness: the concrete scenario — same tin, different names reuses
the consignee row; same name, different addresses inserts a second
exporter row. -/
theorem c5_witness :
    (∃ r₁ db₁ r₂ db₂,
      createShipmentAction (some user1) "IMS" { consignee := some cA } db0 "t1" 2026 1 =
        (.ok r₁, db₁) ∧
      createShipmentAction (some user1) "IMS" { consignee := some cB } db₁ "t2" 2026 2 =
        (.ok r₂, db₂) ∧
      r₂.shipment.consigneeId = r₁.shipment.consigneeId ∧
      db₂.consignees = db₁.consignees) ∧
    (∃ r₁ db₁ r₂ db₂,
      createShipmentAction (some user1) "IMS" { exporter := some eA } db0 "t1" 2026 1 =
        (.ok r₁, db₁) ∧
      createShipmentAction (some user1) "IMS" { exporter := some eB } db₁ "t2" 2026 2 =
        (.ok r₂, db₂) ∧
      r₂.shipment.exporterId ≠ r₁.shipment.exporterId ∧
      db₂.exporters.length = db₁.exporters.length + 1) := by
  obtain ⟨hA, hB⟩ := c5_matching_asymmetry user1 db0 "IMS" 2026 "t1" "t2" 1 2
  constructor
  · obtain ⟨r₁, db₁, r₂, db₂, h1, h2, -, h4, h5⟩ :=
      hA cA cB "111" (by intro r hr; cases hr) (by decide) (by decide)
        (by decide) (by decide) (by decide)
    exact ⟨r₁, db₁, r₂, db₂, h1, h2, h4, h5⟩
  · obtain ⟨r₁, db₁, r₂, db₂, h1, h2, h3, h4⟩ :=
      hB eA eB (by intro r hr; cases hr) (by decide) (by decide)
    exact ⟨r₁, db₁, r₂, db₂, h1, h2, h3, h4⟩

/-- C6: frame of `updateShipmentDetails` — rows with another id are
untouched, and on the caller's shipment every one of the eight blob fields
absent from the partial update keeps its pre-call stored value while every
field present is fully replaced by the supplied value; the status column
is also untouched. -/
theorem c6_partial_update_frame (u : User) (id : Nat) (updates : ShipmentForm)
    (db : DB) (now : String) (cur : Shipment)
    (hfind : db.shipments.find? (fun s => s.id == id && s.userId == u.id) = some cur) :
    ∃ v db', updateShipmentDetailsAction (some u) id updates db now = (.ok v, db') ∧
      db'.shipments.length = db.shipments.length ∧
      ∀ i (h : i < db.shipments.length) (h' : i < db'.shipments.length),
        (db.shipments[i].id ≠ id → db'.shipments[i] = db.shipments[i]) ∧
        (db.shipments[i].id = id →
          (updates.consignee = none →
            db'.shipments[i].consigneeData = db.shipments[i].consigneeData) ∧
          (∀ c, updates.consignee = some c →
            db'.shipments[i].consigneeData = some c) ∧
          (updates.exporter = none →
            db'.shipments[i].exporterData = db.shipments[i].exporterData) ∧
          (∀ e, updates.exporter = some e →
            db'.shipments[i].exporterData = some e) ∧
          (updates.shipmentDetails = none →
            db'.shipments[i].shipmentDetails = db.shipments[i].shipmentDetails) ∧
          (∀ d, updates.shipmentDetails = some d →
            db'.shipments[i].shipmentDetails = d) ∧
          (updates.documents = none →
            db'.shipments[i].documentsData = db.shipments[i].documentsData) ∧
          (∀ d, updates.documents = some d →
            db'.shipments[i].documentsData = d) ∧
          (updates.timeline = none →
            db'.shipments[i].timelineData = db.shipments[i].timelineData) ∧
          (∀ tl, updates.timeline = some tl →
            db'.shipments[i].timelineData = tl) ∧
          (updates.notes = none →
            db'.shipments[i].notesData = db.shipments[i].notesData) ∧
          (∀ n, updates.notes = some n →
            db'.shipments[i].notesData = n) ∧
          (updates.cargo = none →
            db'.shipments[i].cargoData = db.shipments[i].cargoData) ∧
          (∀ cg, updates.cargo = some cg →
            db'.shipments[i].cargoData = some cg) ∧
          (updates.statementOfFacts = none →
            db'.shipments[i].statementOfFactsData =
              db.shipments[i].statementOfFactsData) ∧
          (∀ f, updates.statementOfFacts = some f →
            db'.shipments[i].statementOfFactsData = some f) ∧
          db'.shipments[i].status = db.shipments[i].status) := by
  rw [updateShipmentDetails_some u id updates db now cur hfind]
  refine ⟨_, _, rfl, by simp, ?_⟩
  intro i h h'
  constructor
  · intro hne
    rw [List.getElem_map, if_neg (by simp [hne])]
  · intro heq
    rw [List.getElem_map, if_pos (beq_iff_eq.mpr heq)]
    obtain ⟨p1, p2, p3, p4, p5, p6, p7, p8, p9, p10, p11, -⟩ :=
      applyDetailsUpdate_proj updates (resolveConsigneeId updates cur db)
        (resolveExporterId updates cur db) now (db.shipments[i])
    exact ⟨fun hn => by rw [p2, hn], fun c hc => by rw [p2, hc],
      fun hn => by rw [p4, hn], fun e he => by rw [p4, he],
      fun hn => by rw [p5, hn], fun d hd => by rw [p5, hd],
      fun hn => by rw [p6, hn], fun d hd => by rw [p6, hd],
      fun hn => by rw [p7, hn], fun tl htl => by rw [p7, htl],
      fun hn => by rw [p8, hn], fun n hn => by rw [p8, hn],
      fun hn => by rw [p9, hn], fun cg hcg => by rw [p9, hcg],
      fun hn => by rw [p10, hn], fun f hf => by rw [p10, hf], p11⟩

/-- C6 witness: an update supplying only notes replaces the notes blob and
leaves the consignee snapshot and status byte-identical. -/
theorem c6_witness :
    ∃ v db', updateShipmentDetailsAction (some user1) 60 updC6 dbC4 "t1" =
        (.ok v, db') ∧
      db'.shipments.length = dbC4.shipments.length ∧
      ∀ i (h : i < dbC4.shipments.length) (h' : i < db'.shipments.length),
        dbC4.shipments[i].id = 60 →
          db'.shipments[i].notesData = ["cleared with broker"] ∧
          db'.shipments[i].consigneeData = dbC4.shipments[i].consigneeData ∧
          db'.shipments[i].status = dbC4.shipments[i].status := by
  obtain ⟨v, db', heq, hlen, hidx⟩ :=
    c6_partial_update_frame user1 60 updC6 dbC4 "t1" shipB (by decide)
  refine ⟨v, db', heq, hlen, ?_⟩
  intro i h h' hid
  obtain ⟨-, hfields⟩ := hidx i h h'
  obtain ⟨hc, -, -, -, -, -, -, -, -, -, -, hnotes, -, -, -, -, hstatus⟩ :=
    hfields hid
  exact ⟨hnotes _ rfl, hc rfl, hstatus⟩

/-- C7: `updateShipmentStatus` on an owned shipment returns `true`, sets
the status string, and — when an event is supplied — stores the
pre-existing timeline entries in order followed by the new event as the
last element; with no event the timeline is unchanged. -/
theorem c7_append_timeline (u : User) (id : Nat) (st : String)
    (ev : Option TimelineUpdate) (db : DB) (now : String) (cur : Shipment)
    (hfind : db.shipments.find? (fun s => s.id == id && s.userId == u.id) = some cur) :
    ∃ db', updateShipmentStatusAction (some u) id st ev db now = (true, db') ∧
      db'.shipments.length = db.shipments.length ∧
      ∀ i (h : i < db.shipments.length) (h' : i < db'.shipments.length),
        (db.shipments[i].id ≠ id → db'.shipments[i] = db.shipments[i]) ∧
        (db.shipments[i].id = id →
          db'.shipments[i].status = st ∧
          (ev = none → db'.shipments[i].timelineData = cur.timelineData) ∧
          (∀ e, ev = some e →
            db'.shipments[i].timelineData = cur.timelineData ++ [e.toEntry])) := by
  rw [updateShipmentStatus_some u id st ev db now cur hfind]
  refine ⟨_, rfl, by simp, ?_⟩
  intro i h h'
  constructor
  · intro hne
    rw [List.getElem_map, if_neg (by simp [hne])]
  · intro heq
    rw [List.getElem_map, if_pos (beq_iff_eq.mpr heq)]
    exact ⟨rfl, fun hn => by subst hn; rfl, fun e he => by subst he; rfl⟩

/-- C7 witness: a concrete status update with an event appends exactly
that event after the stored timeline. -/
theorem c7_witness :
    ∃ db',
      updateShipmentStatusAction (some user1) 60 "TAX_COMPUTATION"
        (some { stage := "Tax Computation", status := "in_progress",
                timestamp := "t5" }) dbC4 "t9" = (true, db') ∧
      ∀ i (h : i < dbC4.shipments.length) (h' : i < db'.shipments.length),
        dbC4.shipments[i].id = 60 →
          db'.shipments[i].status = "TAX_COMPUTATION" ∧
          db'.shipments[i].timelineData =
            shipB.timelineData ++
              [{ stage := some "Tax Computation", status := "in_progress",
                 timestamp := "t5", description := none }] := by
  obtain ⟨db', heq, hlen, hidx⟩ :=
    c7_append_timeline user1 60 "TAX_COMPUTATION"
      (some { stage := "Tax Computation", status := "in_progress", timestamp := "t5" })
      dbC4 "t9" shipB (by decide)
  refine ⟨db', heq, ?_⟩
  intro i h h' hid
  obtain ⟨-, hfields⟩ := hidx i h h'
  obtain ⟨hst, -, htl⟩ := hfields hid
  exact ⟨hst, htl _ rfl⟩

/-- C8: `getShipmentById` returns `null` both for an id whose shipment
belongs to a different user and for an id matching no shipment, and the
two results are identical — the caller cannot distinguish non-existence
from non-ownership. -/
theorem c8_ownership_opacity (u : User) (db : DB) (idA idB : Nat)
    (_hforeign : ∃ s ∈ db.shipments, s.id = idA ∧ s.userId ≠ u.id)
    (hA : ∀ s ∈ db.shipments, s.id = idA → s.userId ≠ u.id)
    (hB : ∀ s ∈ db.shipments, s.id ≠ idB) :
    getShipmentByIdAction (some u) idA db = none ∧
    getShipmentByIdAction (some u) idB db = none ∧
    getShipmentByIdAction (some u) idA db = getShipmentByIdAction (some u) idB db := by
  have hfA : db.shipments.find? (fun s => s.id == idA && s.userId == u.id) = none := by
    rw [List.find?_eq_none]
    intro x hx
    simp only [Bool.and_eq_true, beq_iff_eq]
    rintro ⟨h1, h2⟩
    exact hA x hx h1 h2
  have hfB : db.shipments.find? (fun s => s.id == idB && s.userId == u.id) = none := by
    rw [List.find?_eq_none]
    intro x hx
    simp only [Bool.and_eq_true, beq_iff_eq]
    rintro ⟨h1, -⟩
    exact hB x hx h1
  refine ⟨?_, ?_, ?_⟩ <;>
    simp [getShipmentByIdAction, getCurrentUser, hfA, hfB]

/-- C8 witness: shipment 50 exists but belongs to user 2; for caller
user 1 it is indistinguishable from the nonexistent id 99. -/
theorem c8_witness :
    getShipmentByIdAction (some user1) 50 dbRich = none ∧
    getShipmentByIdAction (some user1) 99 dbRich = none := by
  obtain ⟨h1, h2, -⟩ := c8_ownership_opacity user1 dbRich 50 99
    (by exact ⟨shipA, by decide, by decide, by decide⟩)
    (by decide) (by decide)
  exact ⟨h1, h2⟩

/-- C9: `processDocumentUpload` on an owned shipment maps the checklist in
place: when no entry's name equals the document type the stored list is
unchanged in length and content (silent no-op); a matching entry gets
status `draft` with the new file reference appended to its file list; the
list length never changes. -/
theorem c9_upload_checklist (u : User) (sid : Nat) (dt fn : String) (db : DB)
    (ts : String) (cur : Shipment)
    (hfind : db.shipments.find? (fun s => s.id == sid && s.userId == u.id) = some cur) :
    ∃ url db', processDocumentUploadAction (some u) sid dt fn db ts =
        (.ok { fileUrl := url, status := "draft" }, db') ∧
      db'.shipments.length = db.shipments.length ∧
      ∀ i (h : i < db.shipments.length) (h' : i < db'.shipments.length),
        (db.shipments[i].id ≠ sid → db'.shipments[i] = db.shipments[i]) ∧
        (db.shipments[i].id = sid →
          db'.shipments[i].documentsData.length = cur.documentsData.length ∧
          ((∀ d ∈ cur.documentsData, d.name ≠ dt) →
            db'.shipments[i].documentsData = cur.documentsData) ∧
          db'.shipments[i].documentsData =
            cur.documentsData.map (applyUpload dt url) ∧
          (∀ d ∈ cur.documentsData, d.name = dt →
            applyUpload dt url d =
              { d with status := "draft",
                       files := some (d.files.getD [] ++ [url]) }) ∧
          (∀ d ∈ cur.documentsData, d.name ≠ dt →
            applyUpload dt url d = d)) := by
  rw [processDocumentUpload_some u sid dt fn db ts cur hfind]
  refine ⟨_, _, rfl, by simp, ?_⟩
  intro i h h'
  constructor
  · intro hne
    rw [List.getElem_map, if_neg (by simp [hne])]
  · intro heq
    rw [List.getElem_map, if_pos (beq_iff_eq.mpr heq)]
    have hnomatch : ∀ d ∈ cur.documentsData, d.name ≠ dt → applyUpload dt
        ("/simulated-uploads/" ++ Nat.repr sid ++ "/" ++ dt ++ "-" ++ ts
          ++ "-" ++ fn) d = d := by
      intro d hd hne
      simp [applyUpload, hne]
    refine ⟨by simp, ?_, rfl, ?_, hnomatch⟩
    · intro hall
      show cur.documentsData.map _ = cur.documentsData
      have := List.map_congr_left (fun d hd => hnomatch d hd (hall d hd))
      simpa using this
    · intro d hd hname
      simp [applyUpload, hname]

/-- C9 witness: uploading a type absent from the checklist (Commercial
Invoice against a checklist holding only Packing List) leaves the stored
documents list identical. -/
theorem c9_witness :
    ∃ url db', processDocumentUploadAction (some user1) 70 "Commercial Invoice"
        "inv.pdf" dbC9 "t3" = (.ok { fileUrl := url, status := "draft" }, db') ∧
      ∀ i (h : i < dbC9.shipments.length) (h' : i < db'.shipments.length),
        dbC9.shipments[i].id = 70 →
          db'.shipments[i].documentsData = shipC.documentsData := by
  obtain ⟨url, db', heq, hlen, hidx⟩ :=
    c9_upload_checklist user1 70 "Commercial Invoice" "inv.pdf" dbC9 "t3" shipC
      (by decide)
  refine ⟨url, db', heq, ?_⟩
  intro i h h' hid
  obtain ⟨-, hfields⟩ := hidx i h h'
  obtain ⟨-, hnomatch, -, -, -⟩ := hfields hid
  exact hnomatch (by decide)

/-- C10: every successful creation call stores the reference number
determined solely by the shipment type, the current year and the
pseudo-random draw — so equal draws collide and uniqueness is not
guaranteed — and that number decomposes as
`CLEX-<type><2-digit-year>-<4-digit-number>`: the year part is the last
two (digit) characters of the current year and the final part is four
digit characters, zero-padded. -/
theorem c10_format (shipmentType : String) (year draw : Nat)
    (hyear : 10 ≤ year) (hdraw : draw < 10000) :
    (∀ (u : User) (form : ShipmentForm) (db : DB) (now : String),
      ∃ r db', createShipmentAction (some u) shipmentType form db now year draw =
          (.ok r, db') ∧
        r.referenceNumber = referenceNumber shipmentType year draw) ∧
    ∃ yy dd : String,
      referenceNumber shipmentType year draw =
        "CLEX-" ++ shipmentType ++ yy ++ "-" ++ dd ∧
      yy = yearSlice2 year ∧ yy.length = 2 ∧ (∀ c ∈ yy.data, c.isDigit = true) ∧
      dd.length = 4 ∧ (∀ c ∈ dd.data, c.isDigit = true) := by
  constructor
  · intro u form db now
    obtain ⟨cid, db₁, eid, db₂, hC, hE, heq⟩ :=
      create_some u shipmentType form db now year draw
    exact ⟨_, _, heq, rfl⟩
  · refine ⟨yearSlice2 year, padStart4 (Nat.repr draw), rfl, rfl,
      yearSlice2_length year hyear, yearSlice2_digits year,
      padStart4_length _ (Nat.repr_length draw 4 (by norm_num) hdraw),
      padStart4_digits _ (repr_isDigit draw)⟩

/-- C10 witness: type `IMS`, year 2026, draw 7 — the hypotheses hold and
the generated number splits into a two-character year and a four-character
zero-padded draw. -/
theorem c10_witness :
    10 ≤ 2026 ∧ 7 < 10000 ∧
    ∃ yy dd : String,
      referenceNumber "IMS" 2026 7 = "CLEX-" ++ "IMS" ++ yy ++ "-" ++ dd ∧
      yy.length = 2 ∧ dd.length = 4 := by
  refine ⟨by norm_num, by norm_num, ?_⟩
  obtain ⟨-, yy, dd, heq, -, hyy, -, hdd, -⟩ :=
    c10_format "IMS" 2026 7 (by norm_num) (by norm_num)
  exact ⟨yy, dd, heq, hyy, hdd⟩

end Clexcb
